import Mathlib

/-!
# Verification of the rogue-day backend game logic

Shallow embedding of the rogue-day backend (Python/FastAPI/SQLAlchemy) game
rules: tier configuration and XP calculator (`app/core/game_config.py`), the
live task endpoints (`app/api/endpoints/tasks.py`), the extracted service
layer (`app/services/task_service.py`, `app/services/run_service.py`), run
start/extraction (`app/api/endpoints/runs.py`) and preset application
(`app/api/endpoints/presets.py`).

Conventions:
* Python `int` is modelled as `ℤ` (arbitrary precision); `len()` counts as `ℕ`.
* Python float expressions (`duration / x`, `* 0.1`, `* 0.8`) are modelled by
  their exact rational values in `ℚ`; `int(...)` on a float is modelled by
  `pyInt`, truncation toward zero.  All quantities the theorems evaluate stay
  in ranges where IEEE doubles agree with the exact rationals.
* A database row is a structure; a request handler is a pure function from the
  relevant rows to `Except ApiError` of the updated rows.  Error checks that
  the handlers perform before any mutation are modelled as early returns, so a
  returned error means the state is unchanged.
-/

namespace RogueDay

/-- Python `int(x)` on an exact rational: truncation toward zero. -/
def pyInt (q : ℚ) : ℤ := if 0 ≤ q then ⌊q⌋ else ⌈q⌉

/-- Decidable equality of handler results, so that concrete evaluations can
be settled by `decide`. -/
instance {ε α : Type} [DecidableEq ε] [DecidableEq α] :
    DecidableEq (Except ε α) := fun x y =>
  match x, y with
  | .ok a, .ok b =>
      if h : a = b then .isTrue (by rw [h])
      else .isFalse (fun hh => h (Except.ok.inj hh))
  | .error a, .error b =>
      if h : a = b then .isTrue (by rw [h])
      else .isFalse (fun hh => h (Except.error.inj hh))
  | .ok _, .error _ => .isFalse (fun hh => Except.noConfusion hh)
  | .error _, .ok _ => .isFalse (fun hh => Except.noConfusion hh)

/-- `TaskStatus` enum, `app/models.py` lines 10-14. -/
inductive TaskStatus
  | pending
  | active
  | completed
  | failed
  deriving DecidableEq, Repr

/-- `RunStatus` enum, `app/models.py` lines 17-20. -/
inductive RunStatus
  | active
  | extracted
  | abandoned
  deriving DecidableEq, Repr

/-- `TierConfigItem`, `app/core/game_config.py` lines 9-13. -/
structure TierConfigItem where
  energy_cost : ℤ
  base_xp : ℤ
  duration_min : ℤ
  can_fail : Bool
  deriving DecidableEq, Repr

/-- `TIER_CONFIG` with `.get`, `app/core/game_config.py` lines 24-28. -/
def TIER_CONFIG (tier : ℤ) : Option TierConfigItem :=
  if tier = 1 then some ⟨0, 15, 2, false⟩
  else if tier = 2 then some ⟨5, 65, 10, true⟩
  else if tier = 3 then some ⟨15, 175, 25, true⟩
  else none

/-- `GAME_CONFIG["BASE_MAX_ENERGY"]`, `app/core/game_config.py` line 18. -/
def BASE_MAX_ENERGY : ℤ := 50

/-- `calculate_xp`, `app/core/game_config.py` lines 36-61:
`int(base_xp * (duration / duration_min) * (1.0 if use_timer else 0.8))`,
returning 0 when the tier is not in `TIER_CONFIG`. -/
def calculate_xp (tier : ℤ) (duration : ℤ) (use_timer : Bool) : ℤ :=
  match TIER_CONFIG tier with
  | none => 0
  | some config =>
      pyInt ((config.base_xp : ℚ) *
        ((duration : ℚ) / (config.duration_min : ℚ)) *
        (if use_timer then 1 else 4/5))

/-- `Run` row.  `daily_xp`, `focus_energy`, `max_energy`,
`total_focus_minutes`, `status` are the columns of `app/models.py` lines
54-79; `penalty_xp` is the `runs.penalty_xp` column added by migration
`002_extraction_snapshot_fields` (server default 0).  Note that `models.py`
itself does not declare `penalty_xp` — see `run_model_columns` below. -/
structure Run where
  daily_xp : ℤ
  focus_energy : ℤ
  max_energy : ℤ
  total_focus_minutes : ℤ
  penalty_xp : ℤ
  status : RunStatus
  deriving DecidableEq, Repr

/-- `Task` row, `app/models.py` lines 82-104 (data columns only). -/
structure Task where
  title : String
  tier : ℤ
  duration : ℤ
  status : TaskStatus
  xp_earned : ℤ
  energy_cost : ℤ
  use_timer : Bool
  deriving DecidableEq, Repr

/-- `TaskCreate` request schema, `app/schemas.py` lines 47-55
(no bounds are imposed on `tier` or `duration`). -/
structure TaskCreate where
  title : String
  tier : ℤ
  duration : ℤ
  use_timer : Bool
  deriving DecidableEq, Repr

/-- The domain error conditions raised by the handlers (HTTP details and
messages of `tasks.py`, `runs.py`, `presets.py` and the `ValueError`s of the
service layer, identified by their condition). -/
inductive ApiError
  | userNotFound
  | noActiveRun
  | invalidTier
  | notEnoughEnergy
  | taskNotFound
  | taskAlreadyStarted
  | taskAlreadyFinished
  | runNotActive
  | cannotFail
  | taskNotActive
  | onlyPendingDeletable
  | runNotFound
  | runAlreadyExtracted
  | activeRunExists
  | presetNotFound
  deriving DecidableEq, Repr

/-! ## Live task endpoints (`app/api/endpoints/tasks.py`)

These are the handlers wired into the application router
(`app/api/router.py`); they do not use the service layer. -/

/-- The tier table duplicated at the top of `tasks.py` lines 11-15
("same as frontend"); it has no `duration_min` entry. -/
structure EndpointTierItem where
  energy_cost : ℤ
  base_xp : ℤ
  can_fail : Bool
  deriving DecidableEq, Repr

/-- `TIER_CONFIG` of `tasks.py` lines 11-15. -/
def ENDPOINT_TIER_CONFIG (tier : ℤ) : Option EndpointTierItem :=
  if tier = 1 then some ⟨0, 15, false⟩
  else if tier = 2 then some ⟨5, 65, true⟩
  else if tier = 3 then some ⟨15, 175, true⟩
  else none

/-- `create_task`, `tasks.py` lines 20-77.  The handler selects the user's
run with status ACTIVE (modelled by the status guard), then checks the tier
and the energy, computes XP with the endpoint's own formula
`int(base_xp * (duration / 5) * (1.0 if use_timer else 0.8))`
(lines 55-57, commented "Simplified"), deducts the energy cost and creates a
PENDING task. -/
def create_task (run : Run) (data : TaskCreate) : Except ApiError (Run × Task) :=
  if run.status ≠ RunStatus.active then .error .noActiveRun
  else
    match ENDPOINT_TIER_CONFIG data.tier with
    | none => .error .invalidTier
    | some config =>
        if run.focus_energy < config.energy_cost then .error .notEnoughEnergy
        else
          let xp_earned := pyInt ((config.base_xp : ℚ) *
            ((data.duration : ℚ) / 5) * (if data.use_timer then 1 else 4/5))
          let run' := { run with focus_energy := run.focus_energy - config.energy_cost }
          .ok (run', ⟨data.title, data.tier, data.duration, TaskStatus.pending,
            xp_earned, config.energy_cost, data.use_timer⟩)

/-- `start_task`, `tasks.py` lines 80-98: PENDING → ACTIVE; the run is not
read or written. -/
def start_task (task : Task) : Except ApiError Task :=
  if task.status ≠ TaskStatus.pending then .error .taskAlreadyStarted
  else .ok { task with status := TaskStatus.active }

/-- `complete_task`, `tasks.py` lines 101-133.  Rejects tasks that are not
PENDING or ACTIVE; otherwise adds the precomputed XP, refunds the stored
energy cost capped at `max_energy`, adds the duration to the focus-minutes
accumulator and marks the task COMPLETED.  The handler never checks the
owning run's status. -/
def complete_task (run : Run) (task : Task) : Except ApiError (Run × Task) :=
  if task.status ≠ TaskStatus.pending ∧ task.status ≠ TaskStatus.active then
    .error .taskAlreadyFinished
  else
    let run' := { run with
      daily_xp := run.daily_xp + task.xp_earned
      focus_energy := min run.max_energy (run.focus_energy + task.energy_cost)
      total_focus_minutes := run.total_focus_minutes + task.duration }
    .ok (run', { task with status := TaskStatus.completed })

/-- `fail_task`, `tasks.py` lines 136-170.  Requires a failable tier and an
ACTIVE task; for tier 3 deducts `int(run.daily_xp * 0.1)` from the daily XP
(floored at zero).  The handler does not touch `run.penalty_xp` and does not
change `focus_energy`. -/
def fail_task (run : Run) (task : Task) : Except ApiError (Run × Task) :=
  match ENDPOINT_TIER_CONFIG task.tier with
  | none => .error .cannotFail
  | some config =>
      if ¬ config.can_fail then .error .cannotFail
      else if task.status ≠ TaskStatus.active then .error .taskNotActive
      else
        let run' :=
          if task.tier = 3 then
            let penalty := pyInt ((run.daily_xp : ℚ) * (1/10))
            { run with daily_xp := max 0 (run.daily_xp - penalty) }
          else run
        .ok (run', { task with status := TaskStatus.failed })

/-- `delete_task`, `tasks.py` lines 173-193: only PENDING tasks may be
deleted; the stored energy cost is refunded capped at `max_energy`.  The
handler never checks the owning run's status. -/
def delete_task (run : Run) (task : Task) : Except ApiError Run :=
  if task.status ≠ TaskStatus.pending then .error .onlyPendingDeletable
  else .ok { run with
    focus_energy := min run.max_energy (run.focus_energy + task.energy_cost) }

/-! ## Service layer (`app/services/task_service.py`)

The extracted service versions of the same operations.  They are present in
the repository but not referenced by any endpoint; they differ from the live
handlers in the XP formula (`calculate_xp`), the run-status guard on
complete, and the penalty-counter update on fail. -/

namespace TaskService

/-- `TaskService.create`, `task_service.py` lines 22-64: same flow as the
endpoint but XP comes from the centralized `calculate_xp`. -/
def create (run : Run) (data : TaskCreate) : Except ApiError (Run × Task) :=
  if run.status ≠ RunStatus.active then .error .noActiveRun
  else
    match TIER_CONFIG data.tier with
    | none => .error .invalidTier
    | some config =>
        if run.focus_energy < config.energy_cost then .error .notEnoughEnergy
        else
          let xp_earned := calculate_xp data.tier data.duration data.use_timer
          let run' := { run with focus_energy := run.focus_energy - config.energy_cost }
          .ok (run', ⟨data.title, data.tier, data.duration, TaskStatus.pending,
            xp_earned, config.energy_cost, data.use_timer⟩)

/-- `TaskService.complete`, `task_service.py` lines 86-121: additionally
rejects the operation when the owning run is not ACTIVE. -/
def complete (run : Run) (task : Task) : Except ApiError (Run × Task) :=
  if task.status ≠ TaskStatus.pending ∧ task.status ≠ TaskStatus.active then
    .error .taskAlreadyFinished
  else if run.status ≠ RunStatus.active then .error .runNotActive
  else
    let run' := { run with
      daily_xp := run.daily_xp + task.xp_earned
      focus_energy := min run.max_energy (run.focus_energy + task.energy_cost)
      total_focus_minutes := run.total_focus_minutes + task.duration }
    .ok (run', { task with status := TaskStatus.completed })

/-- `TaskService.fail`, `task_service.py` lines 123-159: tier-3 penalty is
both deducted from the daily XP and added to `run.penalty_xp`
(`run.penalty_xp = (run.penalty_xp or 0) + penalty`; `x or 0 = x` on ints). -/
def fail (run : Run) (task : Task) : Except ApiError (Run × Task) :=
  match TIER_CONFIG task.tier with
  | none => .error .cannotFail
  | some config =>
      if ¬ config.can_fail then .error .cannotFail
      else if task.status ≠ TaskStatus.active then .error .taskNotActive
      else
        let run' :=
          if task.tier = 3 then
            let penalty := pyInt ((run.daily_xp : ℚ) * (1/10))
            { run with
              daily_xp := max 0 (run.daily_xp - penalty)
              penalty_xp := run.penalty_xp + penalty }
          else run
        .ok (run', { task with status := TaskStatus.failed })

end TaskService

/-! ## Run lifecycle (`app/api/endpoints/runs.py`) -/

/-- `start_new_run`, `runs.py` lines 98-159.  The handler checks (under a
`SELECT ... FOR UPDATE` row lock) for an existing ACTIVE run, creates a run
from `GAME_CONFIG`, and translates an `IntegrityError` raised by the insert
into the same "Active run already exists" condition.  `has_active_run` models
the outcome of the locked check; `insert_ok` models whether the storage
insert raises a uniqueness violation.  The new row's `penalty_xp` is 0 via
the server default of migration `002_extraction_snapshot_fields`. -/
def start_new_run (has_active_run : Bool) (insert_ok : Bool) :
    Except ApiError Run :=
  if has_active_run then .error .activeRunExists
  else if ¬ insert_ok then .error .activeRunExists
  else .ok { daily_xp := 0, focus_energy := BASE_MAX_ENERGY,
             max_energy := BASE_MAX_ENERGY, total_focus_minutes := 0,
             penalty_xp := 0, status := RunStatus.active }

/-- The abandoned-task sweep of `extract_run`, `runs.py` lines 188-196 (and
`RunService._auto_fail_active_tasks`): every ACTIVE task is set to FAILED in
iteration order; for each tier-3 one, `penalty = int(run.daily_xp * 0.1)` is
deducted from the current daily XP (floored at zero) and added to
`run.penalty_xp`.  Returns the final `(daily_xp, penalty_xp)` and the updated
task list. -/
def sweep_active_tasks : ℤ → ℤ → List Task → ℤ × ℤ × List Task
  | xp, pen, [] => (xp, pen, [])
  | xp, pen, t :: ts =>
      if t.status = TaskStatus.active then
        let penalty := if t.tier = 3 then pyInt ((xp : ℚ) * (1/10)) else 0
        let xp' := if t.tier = 3 then max 0 (xp - penalty) else xp
        let pen' := if t.tier = 3 then pen + penalty else pen
        let r := sweep_active_tasks xp' pen' ts
        (r.1, r.2.1, { t with status := TaskStatus.failed } :: r.2.2)
      else
        let r := sweep_active_tasks xp pen ts
        (r.1, r.2.1, t :: r.2.2)

/-- `Extraction` record as assembled by `extract_run`, `runs.py` lines
216-234 (and `RunService._create_extraction`).  Note that the mapped columns
of the `Extraction` model in `app/models.py` are only a subset of these
fields — see `extraction_model_columns`. -/
structure Extraction where
  final_xp : ℤ
  xp_before_penalties : ℤ
  penalty_xp : ℤ
  tasks_completed : ℕ
  tasks_failed : ℕ
  tasks_total : ℕ
  total_focus_minutes : ℤ
  t1_completed : ℕ
  t2_completed : ℕ
  t3_completed : ℕ
  t1_failed : ℕ
  t2_failed : ℕ
  t3_failed : ℕ
  completed_with_timer : ℕ
  completed_without_timer : ℕ
  deriving DecidableEq, Repr

/-- `extract_run`, `runs.py` lines 162-239 (run/task/extraction part; the
user-stats update is `update_user_stats` below).  Requires an ACTIVE run,
sweeps abandoned ACTIVE tasks, computes the post-sweep completed/failed sets,
the per-tier dictionaries (read back at keys 1-3, which equals counting the
tasks of each tier) and the timer-discipline counts, assembles the Extraction
record, and marks the run EXTRACTED. -/
def extract_run (run : Run) (tasks : List Task) :
    Except ApiError (Run × List Task × Extraction) :=
  if run.status ≠ RunStatus.active then .error .runAlreadyExtracted
  else
    let s := sweep_active_tasks run.daily_xp run.penalty_xp tasks
    let xp := s.1
    let pen := s.2.1
    let tasks' := s.2.2
    let completed := tasks'.filter (fun t => t.status = TaskStatus.completed)
    let failed := tasks'.filter (fun t => t.status = TaskStatus.failed)
    let extraction : Extraction := {
      final_xp := xp
      xp_before_penalties := xp + pen
      penalty_xp := pen
      tasks_completed := completed.length
      tasks_failed := failed.length
      tasks_total := tasks'.length
      total_focus_minutes := run.total_focus_minutes
      t1_completed := (completed.filter (fun t => t.tier = 1)).length
      t2_completed := (completed.filter (fun t => t.tier = 2)).length
      t3_completed := (completed.filter (fun t => t.tier = 3)).length
      t1_failed := (failed.filter (fun t => t.tier = 1)).length
      t2_failed := (failed.filter (fun t => t.tier = 2)).length
      t3_failed := (failed.filter (fun t => t.tier = 3)).length
      completed_with_timer := (completed.filter (fun t => t.use_timer)).length
      completed_without_timer := (completed.filter (fun t => ¬ t.use_timer)).length }
    let run' := { run with
      daily_xp := xp
      penalty_xp := pen
      status := RunStatus.extracted }
    .ok (run', tasks', extraction)

/-! ## User aggregates and streaks (`runs.py` lines 242-264,
`RunService._update_user_stats`) -/

/-- A timestamp with its date portion (`datetime` / `.date()`): calendar
date as a day number plus an opaque time of day. -/
structure Timestamp where
  day : ℤ
  time_of_day : ℕ
  deriving DecidableEq, Repr

/-- The date portion of a timestamp (`.date()`), as a day number, so
`today - timedelta(days=1)` is `today - 1`. -/
def Timestamp.date (ts : Timestamp) : ℤ := ts.day

/-- `User` row aggregate-stat columns, `app/models.py` lines 33-38 and 48. -/
structure User where
  total_xp : ℤ
  total_extractions : ℤ
  total_tasks_completed : ℤ
  total_focus_minutes : ℤ
  current_streak : ℤ
  best_streak : ℤ
  last_run_at : Option Timestamp
  deriving DecidableEq, Repr

/-- The user-stats and streak update performed on successful extraction,
`runs.py` lines 242-264.  `now` stands for the current instant
(`date.today()` / `datetime.now(timezone.utc)`). -/
def update_user_stats (user : User) (run : Run) (completed_count : ℕ)
    (now : Timestamp) : User :=
  let u0 := { user with
    total_xp := user.total_xp + run.daily_xp
    total_extractions := user.total_extractions + 1
    total_tasks_completed := user.total_tasks_completed + completed_count
    total_focus_minutes := user.total_focus_minutes + run.total_focus_minutes }
  let today := now.date
  let u1 :=
    match user.last_run_at with
    | some last =>
        if last.date ≥ today - 1 then
          { u0 with current_streak := u0.current_streak + 1 }
        else
          { u0 with current_streak := 1 }
    | none => { u0 with current_streak := 1 }
  let u2 := { u1 with best_streak := max u1.best_streak u1.current_streak }
  { u2 with last_run_at := some now }

/-! ## Preset application (`app/api/endpoints/presets.py` lines 217-323) -/

/-- `TaskTemplate` row, `app/models.py` lines 128-153 (data columns). -/
structure TaskTemplate where
  title : String
  tier : ℤ
  duration : ℤ
  use_timer : Bool
  times_used : ℤ
  deriving DecidableEq, Repr

/-- Accumulated result of `apply_preset`: the mutated run, a per-template
outcome aligned with the input order (the possibly-usage-incremented
template, and the created task when the template was applied), and the
response counters `tasks_created` / `tasks_skipped` / `total_energy_cost`. -/
structure ApplyResult where
  run : Run
  outs : List (TaskTemplate × Option Task)
  tasks_created : ℕ
  tasks_skipped : ℕ
  total_energy_cost : ℤ
  deriving DecidableEq, Repr

/-- The template loop of `apply_preset`, `presets.py` lines 264-310, over
the templates already sorted by link order.  A template with an unknown tier,
or whose energy cost exceeds the energy remaining at this point, is skipped;
otherwise XP is computed by `calculate_xp`, the energy is deducted, a PENDING
task is created and the template's `times_used` counter is incremented. -/
def apply_preset_go (run : Run) : List TaskTemplate → ApplyResult
  | [] => ⟨run, [], 0, 0, 0⟩
  | tmpl :: rest =>
      match TIER_CONFIG tmpl.tier with
      | none =>
          let r := apply_preset_go run rest
          ⟨r.run, (tmpl, none) :: r.outs, r.tasks_created,
            r.tasks_skipped + 1, r.total_energy_cost⟩
      | some config =>
          if run.focus_energy < config.energy_cost then
            let r := apply_preset_go run rest
            ⟨r.run, (tmpl, none) :: r.outs, r.tasks_created,
              r.tasks_skipped + 1, r.total_energy_cost⟩
          else
            let xp_earned := calculate_xp tmpl.tier tmpl.duration tmpl.use_timer
            let run' := { run with
              focus_energy := run.focus_energy - config.energy_cost }
            let task : Task := ⟨tmpl.title, tmpl.tier, tmpl.duration,
              TaskStatus.pending, xp_earned, config.energy_cost, tmpl.use_timer⟩
            let tmpl' := { tmpl with times_used := tmpl.times_used + 1 }
            let r := apply_preset_go run' rest
            ⟨r.run, (tmpl', some task) :: r.outs, r.tasks_created + 1,
              r.tasks_skipped, r.total_energy_cost + config.energy_cost⟩

/-- `apply_preset`, `presets.py` lines 217-323: requires an existing preset
(its ordered templates are the argument) and an ACTIVE run, then runs the
template loop. -/
def apply_preset (run : Run) (templates : List TaskTemplate) :
    Except ApiError ApplyResult :=
  if run.status ≠ RunStatus.active then .error .noActiveRun
  else .ok (apply_preset_go run templates)

/-- The run's remaining focus energy when the template at index `i` is
examined: the energy after the loop has processed the first `i` templates. -/
def remaining_energy_before (run : Run) (templates : List TaskTemplate)
    (i : ℕ) : ℤ :=
  (apply_preset_go run (templates.take i)).run.focus_energy

/-! ## ORM column declarations (`app/models.py`) versus what `extract_run`
uses

`app/models.py` declares these mapped columns; migration
`002_extraction_snapshot_fields` adds further database columns that the model
classes were never updated to declare.  SQLAlchemy's declarative constructor
rejects keyword arguments that are not mapped attributes (`TypeError`), and
reading an undeclared attribute raises `AttributeError`. -/

/-- Mapped columns of the `Run` model, `app/models.py` lines 54-75. -/
def run_model_columns : List String :=
  ["id", "user_id", "run_date", "daily_xp", "focus_energy", "max_energy",
   "total_focus_minutes", "status", "started_at", "extracted_at"]

/-- Mapped columns of the `Extraction` model, `app/models.py` lines 110-125. -/
def extraction_model_columns : List String :=
  ["id", "user_id", "run_id", "final_xp", "tasks_completed", "tasks_failed",
   "total_focus_minutes", "created_at"]

/-- Keyword arguments passed to the `Extraction(...)` constructor by
`extract_run`, `runs.py` lines 216-234. -/
def extract_run_extraction_kwargs : List String :=
  ["user_id", "run_id", "final_xp", "xp_before_penalties", "penalty_xp",
   "tasks_completed", "tasks_failed", "tasks_total", "total_focus_minutes",
   "t1_completed", "t2_completed", "t3_completed", "t1_failed", "t2_failed",
   "t3_failed", "completed_with_timer", "completed_without_timer"]

/-- `Run` attributes read or written by `extract_run` beyond the status and
timestamp bookkeeping: `runs.py` lines 194-196 read and write
`run.penalty_xp`, and line 220 reads it on every successful path. -/
def extract_run_run_attrs_used : List String :=
  ["daily_xp", "penalty_xp", "total_focus_minutes", "status", "extracted_at"]

/-- Columns migration `002_extraction_snapshot_fields` adds to `runs` and
`extractions` (alembic/versions/002_extraction_snapshot_fields.py). -/
def migration_002_run_columns : List String := ["penalty_xp"]

/-- Columns added to `extractions` by migration 002. -/
def migration_002_extraction_columns : List String :=
  ["xp_before_penalties", "penalty_xp", "tasks_total",
   "t1_completed", "t2_completed", "t3_completed",
   "t1_failed", "t2_failed", "t3_failed",
   "completed_with_timer", "completed_without_timer"]

/-! ## Specification-side definitions and derived helpers -/

/-- The XP formula exactly as the specification section 4.2 states it:
`floor(base_xp[tier] * (duration / reference_duration[tier]) *
(used_timer ? 1.0 : 0.8))` with truncation toward zero, reference durations
2, 10, 25 minutes for tiers 1-3, and 0 for an unknown tier.  Written from
the spec's words, to be compared with `calculate_xp`. -/
def spec_xp (tier : ℤ) (duration : ℤ) (use_timer : Bool) : ℤ :=
  let mult : ℚ := if use_timer then 1 else 4/5
  if tier = 1 then pyInt ((15 : ℚ) * ((duration : ℚ) / 2) * mult)
  else if tier = 2 then pyInt ((65 : ℚ) * ((duration : ℚ) / 10) * mult)
  else if tier = 3 then pyInt ((175 : ℚ) * ((duration : ℚ) / 25) * mult)
  else 0

/-! ## Bit-accurate model of the Python float pipeline

CPython evaluates `base_xp * (duration / duration_min) * timer_multiplier`
(`game_config.py` lines 52-61) in IEEE-754 binary64: `int / int` true
division and each multiplication round their exact rational value to a
53-bit significand, round to nearest with ties to even, and `int(...)`
truncates the final double toward zero.  `roundDouble` is that rounding on
exact rationals, with an unbounded exponent range: overflow to infinity
(Python's `OverflowError` for quotients beyond ~2^1024) and subnormal
underflow are not modelled; no theorem below evaluates near those
magnitudes.  `calculate_xp` above is the exact-rational idealization of the
same expression; `calculate_xp_float` is the bit-accurate semantics. -/

/-- `⌊log₂ q⌋` for a positive rational: the `e` with `2^e ≤ q < 2^(e+1)`
(junk on nonpositive input). -/
def floorLog2 (q : ℚ) : ℤ :=
  let a : ℤ := Nat.log 2 q.num.toNat
  let b : ℤ := Nat.log 2 q.den
  if (2:ℚ) ^ (a - b) ≤ q then a - b else a - b - 1

/-- Round an exact rational to the nearest IEEE binary64 value: scale into
`[2^52, 2^53)`, take the integer part, and round the fractional remainder
to nearest with ties to even. -/
def roundDouble (q : ℚ) : ℚ :=
  if q = 0 then 0
  else
    let a := |q|
    let k : ℤ := floorLog2 a - 52
    let scaled : ℚ := a / (2:ℚ) ^ k
    let m0 : ℤ := ⌊scaled⌋
    let r : ℚ := scaled - (m0 : ℚ)
    let m : ℤ :=
      if r < 1/2 then m0
      else if 1/2 < r then m0 + 1
      else if m0 % 2 = 0 then m0 else m0 + 1
    (if q < 0 then -1 else 1) * (m : ℚ) * (2:ℚ) ^ k

/-- `calculate_xp` (`game_config.py` lines 36-61) with the float pipeline
modelled bit-accurately: `duration / duration_min` rounds, the literal
`0.8` is the double nearest to 4/5, `1.0` is exact, each multiplication
rounds left-to-right, `int()` truncates toward zero. -/
def calculate_xp_float (tier : ℤ) (duration : ℤ) (use_timer : Bool) : ℤ :=
  match TIER_CONFIG tier with
  | none => 0
  | some config =>
      let dm := roundDouble ((duration : ℚ) / (config.duration_min : ℚ))
      let tm : ℚ := if use_timer then 1 else roundDouble (4/5)
      let p1 := roundDouble ((config.base_xp : ℚ) * dm)
      let p2 := roundDouble (p1 * tm)
      pyInt p2

/-- What the preset loop does to the run when it examines one template:
nothing for an unknown tier or an unaffordable energy cost, otherwise the
energy deduction (from `presets.py` lines 271-291). -/
def preset_step_run (run : Run) (tmpl : TaskTemplate) : Run :=
  match TIER_CONFIG tmpl.tier with
  | none => run
  | some config =>
      if run.focus_energy < config.energy_cost then run
      else { run with focus_energy := run.focus_energy - config.energy_cost }

/-- The per-template outcome of the preset loop as a function of the run
state at that iteration (from `presets.py` lines 271-308). -/
def preset_head_out (run : Run) (tmpl : TaskTemplate) :
    TaskTemplate × Option Task :=
  match TIER_CONFIG tmpl.tier with
  | none => (tmpl, none)
  | some config =>
      if run.focus_energy < config.energy_cost then (tmpl, none)
      else ({ tmpl with times_used := tmpl.times_used + 1 },
        some ⟨tmpl.title, tmpl.tier, tmpl.duration, TaskStatus.pending,
          calculate_xp tmpl.tier tmpl.duration tmpl.use_timer,
          config.energy_cost, tmpl.use_timer⟩)

/-! ## Sequences of task operations on one run (for the energy invariant)

One step is one request to the live task endpoints; a rejected request
leaves the state unchanged (the handlers perform all checks before any
mutation, and the request transaction is rolled back on an error). -/

/-- One task-operation request against a run and its task list; indices
select the target task. -/
inductive TaskOp
  | createOp (data : TaskCreate)
  | startOp (i : ℕ)
  | completeOp (i : ℕ)
  | failOp (i : ℕ)
  | deleteOp (i : ℕ)
  deriving DecidableEq, Repr

/-- A run together with its tasks. -/
structure RunState where
  run : Run
  tasks : List Task
  deriving DecidableEq, Repr

/-- Apply one endpoint request to the state; errors (including an
out-of-range task id, i.e. "Task not found") leave the state unchanged. -/
def step (s : RunState) (op : TaskOp) : RunState :=
  match op with
  | .createOp data =>
      match create_task s.run data with
      | .ok (r, t) => ⟨r, s.tasks ++ [t]⟩
      | .error _ => s
  | .startOp i =>
      if h : i < s.tasks.length then
        match start_task (s.tasks.get ⟨i, h⟩) with
        | .ok t' => ⟨s.run, s.tasks.set i t'⟩
        | .error _ => s
      else s
  | .completeOp i =>
      if h : i < s.tasks.length then
        match complete_task s.run (s.tasks.get ⟨i, h⟩) with
        | .ok (r, t') => ⟨r, s.tasks.set i t'⟩
        | .error _ => s
      else s
  | .failOp i =>
      if h : i < s.tasks.length then
        match fail_task s.run (s.tasks.get ⟨i, h⟩) with
        | .ok (r, t') => ⟨r, s.tasks.set i t'⟩
        | .error _ => s
      else s
  | .deleteOp i =>
      if h : i < s.tasks.length then
        match delete_task s.run (s.tasks.get ⟨i, h⟩) with
        | .ok r => ⟨r, s.tasks.eraseIdx i⟩
        | .error _ => s
      else s

/-- A freshly created run (the success case of `start_new_run`) with no
tasks. -/
def init_state : RunState :=
  ⟨⟨0, BASE_MAX_ENERGY, BASE_MAX_ENERGY, 0, 0, RunStatus.active⟩, []⟩

/-- The energy invariant together with the auxiliary fact making it
inductive: every stored task's energy cost is nonnegative. -/
def EnergyInv (s : RunState) : Prop :=
  0 ≤ s.run.focus_energy ∧ s.run.focus_energy ≤ s.run.max_energy ∧
  ∀ t ∈ s.tasks, 0 ≤ t.energy_cost

/-! ## Concrete inputs used by the evidence and witness theorems -/

/-- A fresh active run (50/50 energy). -/
def c2_run : Run := ⟨0, 50, 50, 0, 0, RunStatus.active⟩

/-- A tier-1, 2-minute, with-timer task creation request. -/
def c2_data : TaskCreate := ⟨"Stretch", 1, 2, true⟩

/-- An extracted run: 100 XP, 45/50 energy, 30 focus minutes. -/
def c3_run : Run := ⟨100, 45, 50, 30, 0, RunStatus.extracted⟩

/-- A tier-2 task left PENDING (13 precomputed XP, cost 5). -/
def c3_task : Task := ⟨"Report", 2, 10, TaskStatus.pending, 13, 5, true⟩

/-- An active run with 100 daily XP and no penalties yet. -/
def c4_run : Run := ⟨100, 30, 50, 0, 0, RunStatus.active⟩

/-- An ACTIVE tier-3 task (cost 15 already paid at creation). -/
def c4_task : Task := ⟨"Deep work", 3, 25, TaskStatus.active, 175, 15, true⟩

/-- An extracted run with 45/50 energy. -/
def c5_run : Run := ⟨100, 45, 50, 30, 0, RunStatus.extracted⟩

/-- A tier-2 task that was still PENDING when its run was extracted. -/
def c5_task : Task := ⟨"Leftover", 2, 10, TaskStatus.pending, 13, 5, false⟩

/-- An active run with only 16 focus energy left. -/
def c9_run : Run := ⟨0, 16, 50, 0, 0, RogueDay.RunStatus.active⟩

/-- Four ordered preset templates: a tier-3 (cost 15, affordable), a tier-2
(cost 5, no longer affordable after the first), a tier-1 (cost 0) and one
with an unknown tier. -/
def c9_templates : List TaskTemplate :=
  [⟨"Deep block", 3, 25, true, 0⟩, ⟨"Mid block", 2, 10, false, 2⟩,
   ⟨"Tiny win", 1, 2, true, 7⟩, ⟨"Unknown tier", 9, 10, true, 0⟩]

/-- A user whose last extraction was on day 737 (with streak 4, best 6). -/
def c10_user : User := ⟨200, 3, 10, 120, 4, 6, some ⟨737, 5⟩⟩

/-- The run being extracted for the streak witness. -/
def c10_run : Run := ⟨80, 50, 50, 60, 0, RunStatus.extracted⟩

/-- The current instant: day 738 (the day after the user's last run). -/
def c10_now : Timestamp := ⟨738, 0⟩

/-! # Theorems -/

/-- C1: the extraction handler computes its record from fields that the ORM
models do not declare.  Every column that migration 002 added to
`extractions` is passed to the `Extraction(...)` constructor by
`extract_run` yet is not a mapped column of the `Extraction` model in
`app/models.py`, and `extract_run` reads and writes `run.penalty_xp`, which
is not a mapped column of the `Run` model (only migration 002 knows it).
Hence a valid extraction request fails with an attribute/constructor error
instead of creating the record the claim describes. -/
theorem extract_run_fields_missing_from_models :
    ("penalty_xp" ∈ extract_run_run_attrs_used ∧
      "penalty_xp" ∉ run_model_columns ∧
      "penalty_xp" ∈ migration_002_run_columns) ∧
    (∀ c ∈ migration_002_extraction_columns,
      c ∈ extract_run_extraction_kwargs ∧ c ∉ extraction_model_columns) := by
  decide

/-- C2: on a fresh 50/50 run, creating a tier-1, 2-minute, with-timer task
through the live endpoint stores `xp_earned = int(15 * (2/5) * 1.0) = 6`,
while the centralized 4.2 formula (`calculate_xp`, used by the service layer)
gives `floor(15 * (2/2) * 1.0) = 15`.  Energy handling and the PENDING start
agree; only the XP formula diverges. -/
theorem create_task_xp_formula_diverges :
    create_task c2_run c2_data =
      Except.ok (⟨0, 50, 50, 0, 0, RunStatus.active⟩,
        ⟨"Stretch", 1, 2, TaskStatus.pending, 6, 0, true⟩) ∧
    TaskService.create c2_run c2_data =
      Except.ok (⟨0, 50, 50, 0, 0, RunStatus.active⟩,
        ⟨"Stretch", 1, 2, TaskStatus.pending, 15, 0, true⟩) ∧
    calculate_xp 1 2 true = 15 ∧ (6 : ℤ) ≠ 15 := by
  refine ⟨?_, ?_, ?_, by decide⟩
  · simp only [create_task, c2_run, c2_data, ENDPOINT_TIER_CONFIG]
    norm_num [pyInt]
  · simp only [TaskService.create, c2_run, c2_data, TIER_CONFIG, calculate_xp]
    norm_num [pyInt]
  · simp only [calculate_xp, TIER_CONFIG]
    norm_num [pyInt]

/-- C3: the live `complete_task` endpoint never checks the owning run's
status: completing a task left PENDING on an already-extracted run succeeds
and adds its XP, energy refund and minutes to the extracted run, whereas the
claim (and `TaskService.complete`) require the operation to fail when the
run is not Active. -/
theorem complete_task_ignores_run_status :
    c3_run.status = RunStatus.extracted ∧
    complete_task c3_run c3_task =
      Except.ok (⟨113, 50, 50, 40, 0, RunStatus.extracted⟩,
        { c3_task with status := TaskStatus.completed }) ∧
    TaskService.complete c3_run c3_task = Except.error ApiError.runNotActive := by
  refine ⟨rfl, by decide, by decide⟩

/-- C4: failing an ACTIVE tier-3 task on a run with 100 daily XP: the live
endpoint deducts the 10-XP penalty (100 → 90) but leaves the run's
cumulative penalty counter unchanged at 0, while the claim (and
`TaskService.fail`, and the extraction sweep) add the same 10 to the
counter.  Energy is not refunded and the task becomes FAILED in both. -/
theorem fail_task_drops_penalty_counter :
    fail_task c4_run c4_task =
      Except.ok (⟨90, 30, 50, 0, 0, RunStatus.active⟩,
        { c4_task with status := TaskStatus.failed }) ∧
    TaskService.fail c4_run c4_task =
      Except.ok (⟨90, 30, 50, 0, 10, RunStatus.active⟩,
        { c4_task with status := TaskStatus.failed }) := by
  constructor
  · simp only [fail_task, c4_run, c4_task, ENDPOINT_TIER_CONFIG]
    norm_num [pyInt]
  · simp only [TaskService.fail, c4_run, c4_task, TIER_CONFIG]
    norm_num [pyInt]

/-- C5 counterexample: deleting a task left PENDING on an Extracted run is
accepted and refunds its energy cost to the run (45 → 50), so a subsequent
operation does change an extracted run's fields. -/
theorem delete_task_mutates_extracted_run :
    c5_run.status = RunStatus.extracted ∧
    delete_task c5_run c5_task =
      Except.ok ⟨100, 50, 50, 30, 0, RunStatus.extracted⟩ ∧
    (⟨100, 50, 50, 30, 0, RunStatus.extracted⟩ : Run).focus_energy ≠
      c5_run.focus_energy := by
  decide

/-- C5 (amended): for an Extracted run, task creation and repeated
extraction are rejected and the run is untouched (they are the only
operations here that consult the run's status); but deleting a task still
Pending is not guarded by the run's status — it succeeds and refunds the
task's stored energy cost to the extracted run capped at `max_energy`,
which is the mutation the counterexample exhibits. -/
theorem extracted_run_rejects_create_and_reextract :
    ∀ (run : Run) (tasks : List Task) (data : TaskCreate) (task : Task),
      run.status = RunStatus.extracted →
        create_task run data = Except.error ApiError.noActiveRun ∧
        extract_run run tasks = Except.error ApiError.runAlreadyExtracted ∧
        (task.status = TaskStatus.pending →
          delete_task run task = Except.ok { run with
            focus_energy := min run.max_energy
              (run.focus_energy + task.energy_cost) }) := by
  intro run tasks data task h
  refine ⟨?_, ?_, ?_⟩
  · simp [create_task, h]
  · simp [extract_run, h]
  · intro ht
    simp [delete_task, ht]

/-- C5 witness: the amended theorem applied to the concrete extracted run
and its leftover pending task (refund 45 + 5 capped at 50). -/
theorem extracted_run_rejects_create_and_reextract_witness :
    create_task c5_run c2_data = Except.error ApiError.noActiveRun ∧
    extract_run c5_run [] = Except.error ApiError.runAlreadyExtracted ∧
    delete_task c5_run c5_task = Except.ok { c5_run with
      focus_energy := min c5_run.max_energy
        (c5_run.focus_energy + c5_task.energy_cost) } :=
  ⟨(extracted_run_rejects_create_and_reextract c5_run [] c2_data c5_task rfl).1,
   (extracted_run_rejects_create_and_reextract c5_run [] c2_data c5_task rfl).2.1,
   (extracted_run_rejects_create_and_reextract c5_run [] c2_data c5_task rfl).2.2 rfl⟩

/-- The exact-rational idealization `calculate_xp` agrees everywhere with
the spec-4.2 formula (reference durations 2, 10, 25; 0.8 no-timer
multiplier; 0 for an unknown tier), and truncates toward zero rather than
rounding (19.5 → 19).  This concerns the idealized semantics only; the
bit-accurate float semantics is settled by `calculate_xp_float_spec` and
`calculate_xp_float_diverges_at_large_duration` below. -/
theorem calculate_xp_matches_spec_formula :
    (∀ (tier duration : ℤ) (use_timer : Bool),
      calculate_xp tier duration use_timer = spec_xp tier duration use_timer) ∧
    calculate_xp 2 3 true = 19 ∧
    (65 : ℚ) * ((3 : ℚ) / 10) * 1 = 39/2 := by
  refine ⟨?_, ?_, by norm_num⟩
  · intro tier duration use_timer
    simp only [calculate_xp, spec_xp, TIER_CONFIG]
    split_ifs <;> norm_num
  · simp only [calculate_xp, TIER_CONFIG]
    norm_num [pyInt]

/-! ### Correctness of the binary64 rounding model -/

/-- Powers of two are positive in `ℚ`. -/
theorem two_zpow_pos (k : ℤ) : (0:ℚ) < (2:ℚ) ^ k :=
  zpow_pos (by norm_num) k

/-- `floorLog2` brackets a positive rational between consecutive powers of
two. -/
theorem floorLog2_correct (q : ℚ) (hq : 0 < q) :
    (2:ℚ) ^ floorLog2 q ≤ q ∧ q < (2:ℚ) ^ (floorLog2 q + 1) := by
  have hqnum : 0 < q.num := Rat.num_pos.mpr hq
  obtain ⟨n, hn⟩ : ∃ n : ℕ, q.num = (n : ℤ) :=
    ⟨q.num.toNat, (Int.toNat_of_nonneg hqnum.le).symm⟩
  have hn0 : n ≠ 0 := by omega
  have hden0 : q.den ≠ 0 := q.den_nz
  have hqd : (0:ℚ) < (q.den : ℚ) := by exact_mod_cast q.pos
  have hq_eq : q = (q.num : ℚ) / (q.den : ℚ) := (Rat.num_div_den q).symm
  have hncast : (q.num : ℚ) = (n : ℚ) := by exact_mod_cast congrArg Int.cast hn
  simp only [floorLog2, hn, Int.toNat_natCast]
  set x : ℕ := Nat.log 2 n with hx
  set y : ℕ := Nat.log 2 q.den with hy
  have hq1 : (2:ℚ) ^ (x : ℤ) ≤ (n : ℚ) := by
    rw [zpow_natCast]
    exact_mod_cast Nat.pow_log_le_self 2 hn0
  have hq2 : (n : ℚ) < (2:ℚ) ^ ((x : ℤ) + 1) := by
    rw [show ((x : ℤ) + 1) = ((x + 1 : ℕ) : ℤ) by push_cast; ring, zpow_natCast]
    exact_mod_cast Nat.lt_pow_succ_log_self (by norm_num) n
  have hq3 : (2:ℚ) ^ (y : ℤ) ≤ (q.den : ℚ) := by
    rw [zpow_natCast]
    exact_mod_cast Nat.pow_log_le_self 2 hden0
  have hq4 : (q.den : ℚ) < (2:ℚ) ^ ((y : ℤ) + 1) := by
    rw [show ((y : ℤ) + 1) = ((y + 1 : ℕ) : ℤ) by push_cast; ring, zpow_natCast]
    exact_mod_cast Nat.lt_pow_succ_log_self (by norm_num) q.den
  have hup : q < (2:ℚ) ^ ((x : ℤ) - (y : ℤ) + 1) := by
    rw [hq_eq, hncast, div_lt_iff₀ hqd]
    calc (n : ℚ) < (2:ℚ) ^ ((x : ℤ) + 1) := hq2
      _ = (2:ℚ) ^ ((x : ℤ) - (y : ℤ) + 1) * (2:ℚ) ^ (y : ℤ) := by
          rw [← zpow_add₀ (by norm_num : (2:ℚ) ≠ 0)]
          congr 1
          ring
      _ ≤ (2:ℚ) ^ ((x : ℤ) - (y : ℤ) + 1) * (q.den : ℚ) :=
          mul_le_mul_of_nonneg_left hq3 (two_zpow_pos _).le
  have hlow : (2:ℚ) ^ ((x : ℤ) - (y : ℤ) - 1) < q := by
    rw [hq_eq, hncast, lt_div_iff₀ hqd]
    calc (2:ℚ) ^ ((x : ℤ) - (y : ℤ) - 1) * (q.den : ℚ)
        < (2:ℚ) ^ ((x : ℤ) - (y : ℤ) - 1) * (2:ℚ) ^ ((y : ℤ) + 1) :=
          mul_lt_mul_of_pos_left hq4 (two_zpow_pos _)
      _ = (2:ℚ) ^ (x : ℤ) := by
          rw [← zpow_add₀ (by norm_num : (2:ℚ) ≠ 0)]
          congr 1
          ring
      _ ≤ (n : ℚ) := hq1
  by_cases hc : (2:ℚ) ^ ((x : ℤ) - (y : ℤ)) ≤ q
  · rw [if_pos hc]
    exact ⟨hc, hup⟩
  · rw [if_neg hc]
    constructor
    · exact hlow.le
    · rw [show (x : ℤ) - (y : ℤ) - 1 + 1 = (x : ℤ) - (y : ℤ) by ring]
      exact not_le.mp hc

/-- The power-of-two window determines `floorLog2` uniquely. -/
theorem floorLog2_eq_of (q : ℚ) (e : ℤ) (hq : 0 < q)
    (h1 : (2:ℚ) ^ e ≤ q) (h2 : q < (2:ℚ) ^ (e + 1)) : floorLog2 q = e := by
  obtain ⟨hc1, hc2⟩ := floorLog2_correct q hq
  by_contra hne
  rcases lt_or_gt_of_ne hne with hlt | hgt
  · have hstep : (2:ℚ) ^ (floorLog2 q + 1) ≤ (2:ℚ) ^ e :=
      (zpow_le_zpow_iff_right₀ (by norm_num : (1:ℚ) < 2)).mpr (by omega)
    exact absurd h1 (not_le.mpr (lt_of_lt_of_le hc2 hstep))
  · have hstep : (2:ℚ) ^ (e + 1) ≤ (2:ℚ) ^ (floorLog2 q) :=
      (zpow_le_zpow_iff_right₀ (by norm_num : (1:ℚ) < 2)).mpr (by omega)
    exact absurd hc1 (not_le.mpr (lt_of_lt_of_le h2 hstep))

/-- A positive value with a significand of at most 53 bits is its own
nearest double: `roundDouble` is the identity on representable values. -/
theorem roundDouble_pos_rep (m k : ℤ) (hm0 : 0 < m) (hm : m < 2 ^ 53) :
    roundDouble ((m : ℚ) * (2:ℚ) ^ k) = (m : ℚ) * (2:ℚ) ^ k := by
  have hq : (0:ℚ) < (m:ℚ) * (2:ℚ) ^ k :=
    mul_pos (by exact_mod_cast hm0) (two_zpow_pos k)
  obtain ⟨hl, hr⟩ := floorLog2_correct _ hq
  set e : ℤ := floorLog2 ((m:ℚ) * (2:ℚ) ^ k) with he
  have hek : e - 52 ≤ k := by
    by_contra hcon
    push_neg at hcon
    have h53 : (m:ℚ) < (2:ℚ) ^ (53 : ℤ) := by
      rw [show ((53:ℤ)) = ((53:ℕ) : ℤ) from rfl, zpow_natCast]
      exact_mod_cast hm
    have hlt : (m:ℚ) * (2:ℚ) ^ k < (2:ℚ) ^ (k + 53) := by
      calc (m:ℚ) * (2:ℚ) ^ k < (2:ℚ) ^ (53:ℤ) * (2:ℚ) ^ k :=
            mul_lt_mul_of_pos_right h53 (two_zpow_pos k)
        _ = (2:ℚ) ^ (k + 53) := by
            rw [← zpow_add₀ (by norm_num : (2:ℚ) ≠ 0)]
            congr 1
            ring
    have hmono : (2:ℚ) ^ (k + 53) ≤ (2:ℚ) ^ e :=
      (zpow_le_zpow_iff_right₀ (by norm_num : (1:ℚ) < 2)).mpr (by omega)
    exact absurd hl (not_le.mpr (lt_of_lt_of_le hlt hmono))
  set n : ℕ := (k - (e - 52)).toNat with hn
  have hn' : (n : ℤ) = k - (e - 52) := Int.toNat_of_nonneg (by omega)
  have hpow : (2:ℚ) ^ (n : ℕ) * (2:ℚ) ^ (e - 52) = (2:ℚ) ^ k := by
    rw [← zpow_natCast (2:ℚ) n, ← zpow_add₀ (by norm_num : (2:ℚ) ≠ 0)]
    congr 1
    omega
  have hscaled : (m:ℚ) * (2:ℚ) ^ k / (2:ℚ) ^ (e - 52) = ((m * 2 ^ n : ℤ) : ℚ) := by
    rw [div_eq_iff (two_zpow_pos (e - 52)).ne']
    push_cast
    rw [mul_assoc, hpow]
  have habs : |(m:ℚ) * (2:ℚ) ^ k| = (m:ℚ) * (2:ℚ) ^ k := abs_of_pos hq
  simp only [roundDouble, habs, ← he, hscaled, Int.floor_intCast, sub_self,
    if_neg hq.ne', if_pos (by norm_num : (0:ℚ) < 1/2), if_neg (lt_asymm hq)]
  push_cast
  rw [one_mul, mul_assoc, hpow]

/-- Reduction of the float calculator at tier 1. -/
theorem calculate_xp_float_one (d : ℤ) (b : Bool) :
    calculate_xp_float 1 d b =
      pyInt (roundDouble (roundDouble ((15:ℚ) * roundDouble ((d:ℚ) / 2)) *
        (if b then 1 else roundDouble (4/5)))) := by
  simp only [calculate_xp_float, TIER_CONFIG]
  norm_num

/-- C7 counterexample: the claim's exact floor formula is not what the code
computes for every duration.  At tier 1, duration `2^53 + 1`, with timer,
the double division halves an odd 54-bit integer and the tie rounds to
even, so the code returns `15 * 2^52`, while the claimed
`floor(15 * ((2^53+1) / 2) * 1.0)` is `15 * 2^52 + 7`. -/
theorem calculate_xp_float_diverges_at_large_duration :
    calculate_xp_float 1 (2 ^ 53 + 1) true = 15 * 2 ^ 52 ∧
    spec_xp 1 (2 ^ 53 + 1) true = 15 * 2 ^ 52 + 7 ∧
    (15 * 2 ^ 52 : ℤ) ≠ 15 * 2 ^ 52 + 7 := by
  refine ⟨?_, ?_, by norm_num⟩
  · have hq_pos : (0:ℚ) < 9007199254740993 / 2 := by norm_num
    have hfl : floorLog2 ((9007199254740993 : ℚ) / 2) = 52 := by
      apply floorLog2_eq_of _ _ hq_pos
      · norm_num
      · norm_num
    have habs : |(9007199254740993 : ℚ) / 2| = (9007199254740993 : ℚ) / 2 :=
      abs_of_pos hq_pos
    have hdm : roundDouble ((9007199254740993 : ℚ) / 2) = 4503599627370496 := by
      simp only [roundDouble, habs, hfl, if_neg hq_pos.ne']
      norm_num
    have h15 : (67553994410557440 : ℚ) =
        ((8444249301319680 : ℤ) : ℚ) * (2:ℚ) ^ (3 : ℤ) := by
      push_cast
      norm_num
    have hp1 : roundDouble (67553994410557440 : ℚ) = 67553994410557440 := by
      rw [h15]
      exact roundDouble_pos_rep 8444249301319680 3 (by norm_num) (by norm_num)
    rw [calculate_xp_float_one]
    norm_num [hdm, hp1, pyInt]
  · simp only [spec_xp]
    norm_num [pyInt]

/-- C7 (amended): the XP calculator computes the truncation toward zero of
the IEEE binary64 evaluation of the 4.2 expression, and returns 0 for
every tier outside {1,2,3}; it equals the exact floor formula only while
the double arithmetic is exact — proved here for the dyadic tier-1
with-timer family, every duration `0 ≤ d ≤ 2^48`. -/
theorem calculate_xp_float_spec :
    (∀ (tier duration : ℤ) (use_timer : Bool),
      tier ≠ 1 → tier ≠ 2 → tier ≠ 3 →
        calculate_xp_float tier duration use_timer = 0) ∧
    (∀ duration : ℤ, 0 ≤ duration → duration ≤ 2 ^ 48 →
      calculate_xp_float 1 duration true = spec_xp 1 duration true) := by
  constructor
  · intro tier duration use_timer h1 h2 h3
    simp [calculate_xp_float, TIER_CONFIG, h1, h2, h3]
  · intro d h0 h48
    rcases eq_or_lt_of_le h0 with rfl | hpos
    · norm_num [calculate_xp_float_one, spec_xp, roundDouble, pyInt]
    · have e48 : (2:ℤ) ^ 48 = 281474976710656 := by norm_num
      have e53 : (2:ℤ) ^ 53 = 9007199254740992 := by norm_num
      have hd53 : d < 2 ^ 53 := by omega
      have hm15 : 15 * d < 2 ^ 53 := by omega
      have harg : (d:ℚ) / 2 = ((d : ℤ) : ℚ) * (2:ℚ) ^ (-1 : ℤ) := by
        rw [zpow_neg, zpow_one, div_eq_mul_inv]
      have hdm : roundDouble ((d:ℚ) / 2) = (d:ℚ) / 2 := by
        rw [harg]
        exact roundDouble_pos_rep d (-1) hpos hd53
      have harg2 : (15:ℚ) * ((d:ℚ) / 2) =
          ((15 * d : ℤ) : ℚ) * (2:ℚ) ^ (-1 : ℤ) := by
        push_cast
        rw [zpow_neg, zpow_one]
        ring
      have hp1 : roundDouble ((15:ℚ) * ((d:ℚ) / 2)) = (15:ℚ) * ((d:ℚ) / 2) := by
        rw [harg2]
        exact roundDouble_pos_rep (15 * d) (-1) (by omega) hm15
      rw [calculate_xp_float_one]
      simp only [if_pos, hdm, hp1, mul_one]
      simp only [spec_xp]
      norm_num

/-- C7 witness: the amended theorem at an unknown tier and at the odd
duration 3 (where the exact value 22.5 is truncated to 22). -/
theorem calculate_xp_float_spec_witness :
    calculate_xp_float 9 10 true = 0 ∧
    calculate_xp_float 1 3 true = spec_xp 1 3 true :=
  ⟨calculate_xp_float_spec.1 9 10 true (by decide) (by decide) (by decide),
   calculate_xp_float_spec.2 3 (by decide) (by decide)⟩

/-- C8: starting a new run fails with the ActiveRunExists condition when an
Active run exists, translates a storage uniqueness violation during the
insert into the same condition, and otherwise creates a run with daily XP 0,
focus_energy = max_energy = 50 (the configured base energy), 0 focus
minutes, 0 penalty XP, status Active. -/
theorem start_new_run_spec :
    ∀ has_active_run insert_ok : Bool,
      (has_active_run = true →
        start_new_run has_active_run insert_ok =
          Except.error ApiError.activeRunExists) ∧
      (insert_ok = false →
        start_new_run has_active_run insert_ok =
          Except.error ApiError.activeRunExists) ∧
      (has_active_run = false → insert_ok = true →
        start_new_run has_active_run insert_ok =
          Except.ok ⟨0, 50, 50, 0, 0, RunStatus.active⟩ ∧
        BASE_MAX_ENERGY = 50) := by
  decide

/-- C8 witness: the theorem applied at concrete flag values. -/
theorem start_new_run_spec_witness :
    start_new_run false true = Except.ok ⟨0, 50, 50, 0, 0, RunStatus.active⟩ ∧
    start_new_run true true = Except.error ApiError.activeRunExists ∧
    start_new_run false false = Except.error ApiError.activeRunExists :=
  ⟨((start_new_run_spec false true).2.2 rfl rfl).1,
   (start_new_run_spec true true).1 rfl,
   (start_new_run_spec false false).2.1 rfl⟩

/-- C10: on successful extraction, the streak update behaves as claimed: no
prior last-run timestamp gives streak 1; a last-run date on or after
yesterday increments the streak; an older one resets it to 1; the best
streak becomes the max of the old best and the new current streak; and the
last-run timestamp is set to the current instant in every branch. -/
theorem update_user_stats_streak_spec :
    ∀ (user : User) (run : Run) (completed_count : ℕ) (now : Timestamp),
      (user.last_run_at = none →
        (update_user_stats user run completed_count now).current_streak = 1) ∧
      (∀ last, user.last_run_at = some last →
        (last.date ≥ now.date - 1 →
          (update_user_stats user run completed_count now).current_streak =
            user.current_streak + 1) ∧
        (¬ last.date ≥ now.date - 1 →
          (update_user_stats user run completed_count now).current_streak = 1)) ∧
      (update_user_stats user run completed_count now).best_streak =
        max user.best_streak
          (update_user_stats user run completed_count now).current_streak ∧
      (update_user_stats user run completed_count now).last_run_at = some now := by
  intro user run completed_count now
  refine ⟨?_, ?_, ?_, ?_⟩
  · intro h0
    simp [update_user_stats, h0]
  · intro last hl
    constructor
    · intro hge
      simp only [update_user_stats, hl]
      rw [if_pos hge]
    · intro hlt
      simp only [update_user_stats, hl]
      rw [if_neg hlt]
  · cases h : user.last_run_at with
    | none => simp [update_user_stats, h]
    | some last =>
        simp only [update_user_stats, h]
        by_cases hge : last.date ≥ now.date - 1
        · rw [if_pos hge]
        · rw [if_neg hge]
  · cases h : user.last_run_at with
    | none => simp [update_user_stats, h]
    | some last => simp [update_user_stats, h]

/-! ### Helper lemmas for the energy invariant (C6) -/

/-- Every energy cost in the endpoint tier table is nonnegative. -/
theorem endpoint_tier_cost_nonneg (tier : ℤ) (c : EndpointTierItem)
    (h : ENDPOINT_TIER_CONFIG tier = some c) : 0 ≤ c.energy_cost := by
  unfold ENDPOINT_TIER_CONFIG at h
  split_ifs at h <;> first
    | exact Option.noConfusion h
    | (obtain rfl := (Option.some.inj h).symm; decide)

/-- Successful task creation: the energy cost came from the tier table, was
affordable, and is exactly what is deducted and stored on the task. -/
theorem create_task_ok (run : Run) (data : TaskCreate) (r : Run) (t : Task)
    (h : create_task run data = Except.ok (r, t)) :
    ∃ c, ENDPOINT_TIER_CONFIG data.tier = some c ∧
      c.energy_cost ≤ run.focus_energy ∧
      r = { run with focus_energy := run.focus_energy - c.energy_cost } ∧
      t.energy_cost = c.energy_cost := by
  unfold create_task at h
  split at h
  · exact Except.noConfusion h
  · split at h
    · exact Except.noConfusion h
    · rename_i c hc
      split at h
      · exact Except.noConfusion h
      · rename_i hfe
        injection h with hpair
        injection hpair with h1 h2
        exact ⟨c, hc, le_of_not_lt hfe, h1.symm, by rw [← h2]⟩

/-- Successful start: only the task's status changes. -/
theorem start_task_ok (task t' : Task) (h : start_task task = Except.ok t') :
    t' = { task with status := TaskStatus.active } := by
  unfold start_task at h
  split at h
  · exact Except.noConfusion h
  · exact (Except.ok.inj h).symm

/-- Successful completion: the run gains the XP, the min-capped energy
refund and the focus minutes; the task becomes COMPLETED. -/
theorem complete_task_ok (run : Run) (task : Task) (r : Run) (t' : Task)
    (h : complete_task run task = Except.ok (r, t')) :
    r = { run with
      daily_xp := run.daily_xp + task.xp_earned
      focus_energy := min run.max_energy (run.focus_energy + task.energy_cost)
      total_focus_minutes := run.total_focus_minutes + task.duration } ∧
    t' = { task with status := TaskStatus.completed } := by
  unfold complete_task at h
  split at h
  · exact Except.noConfusion h
  · injection h with hpair
    injection hpair with h1 h2
    exact ⟨h1.symm, h2.symm⟩

/-- Successful fail: focus energy and max energy are untouched; the task
becomes FAILED. -/
theorem fail_task_ok (run : Run) (task : Task) (r : Run) (t' : Task)
    (h : fail_task run task = Except.ok (r, t')) :
    r.focus_energy = run.focus_energy ∧ r.max_energy = run.max_energy ∧
    t' = { task with status := TaskStatus.failed } := by
  unfold fail_task at h
  split at h
  · exact Except.noConfusion h
  · split at h
    · exact Except.noConfusion h
    · split at h
      · exact Except.noConfusion h
      · injection h with hpair
        injection hpair with h1 h2
        obtain rfl := h1.symm
        refine ⟨?_, ?_, h2.symm⟩
        · split <;> rfl
        · split <;> rfl

/-- Successful deletion: the run gets the min-capped energy refund. -/
theorem delete_task_ok (run : Run) (task : Task) (r : Run)
    (h : delete_task run task = Except.ok r) :
    r = { run with
      focus_energy := min run.max_energy (run.focus_energy + task.energy_cost) } := by
  unfold delete_task at h
  split at h
  · exact Except.noConfusion h
  · exact (Except.ok.inj h).symm

/-- Membership survives removing an index. -/
theorem mem_of_mem_eraseIdx {α : Type} :
    ∀ (l : List α) (i : ℕ) (x : α), x ∈ l.eraseIdx i → x ∈ l := by
  intro l
  induction l with
  | nil => intro i x hx; simp [List.eraseIdx] at hx
  | cons a l ih =>
      intro i x hx
      cases i with
      | zero => exact List.mem_cons_of_mem a hx
      | succ i =>
          rcases List.mem_cons.mp hx with rfl | hx
          · exact List.mem_cons_self _ _
          · exact List.mem_cons_of_mem a (ih i x hx)

/-- One endpoint request preserves the energy invariant. -/
theorem step_preserves_energy_inv (s : RunState) (op : TaskOp)
    (h : EnergyInv s) : EnergyInv (step s op) := by
  obtain ⟨h0, h1, h2⟩ := h
  cases op with
  | createOp data =>
      simp only [step]
      split
      · rename_i r t heq
        obtain ⟨c, hc, hle, hr, ht⟩ := create_task_ok _ _ _ _ heq
        have hcost := endpoint_tier_cost_nonneg _ _ hc
        subst hr
        refine ⟨?_, ?_, ?_⟩
        · show 0 ≤ s.run.focus_energy - c.energy_cost
          omega
        · show s.run.focus_energy - c.energy_cost ≤ s.run.max_energy
          omega
        · intro x hx
          rcases List.mem_append.mp hx with hx | hx
          · exact h2 x hx
          · rw [List.mem_singleton.mp hx, ht]
            exact hcost
      · exact ⟨h0, h1, h2⟩
  | startOp i =>
      simp only [step]
      split
      · rename_i hi
        split
        · rename_i t' heq
          obtain rfl := start_task_ok _ _ heq
          refine ⟨h0, h1, ?_⟩
          intro x hx
          rcases List.mem_or_eq_of_mem_set hx with hx | rfl
          · exact h2 x hx
          · show 0 ≤ (s.tasks.get ⟨i, hi⟩).energy_cost
            exact h2 _ (List.get_mem _ _ _)
        · exact ⟨h0, h1, h2⟩
      · exact ⟨h0, h1, h2⟩
  | completeOp i =>
      simp only [step]
      split
      · rename_i hi
        split
        · rename_i r t' heq
          obtain ⟨hr, ht'⟩ := complete_task_ok _ _ _ _ heq
          have hc : 0 ≤ (s.tasks.get ⟨i, hi⟩).energy_cost :=
            h2 _ (List.get_mem _ _ _)
          subst hr
          subst ht'
          refine ⟨?_, ?_, ?_⟩
          · show 0 ≤ min s.run.max_energy
              (s.run.focus_energy + (s.tasks.get ⟨i, hi⟩).energy_cost)
            exact le_min (by omega) (by omega)
          · show min s.run.max_energy
              (s.run.focus_energy + (s.tasks.get ⟨i, hi⟩).energy_cost) ≤
                s.run.max_energy
            exact min_le_left _ _
          · intro x hx
            rcases List.mem_or_eq_of_mem_set hx with hx | rfl
            · exact h2 x hx
            · show 0 ≤ (s.tasks.get ⟨i, hi⟩).energy_cost
              exact h2 _ (List.get_mem _ _ _)
        · exact ⟨h0, h1, h2⟩
      · exact ⟨h0, h1, h2⟩
  | failOp i =>
      simp only [step]
      split
      · rename_i hi
        split
        · rename_i r t' heq
          obtain ⟨hfe, hmax, ht'⟩ := fail_task_ok _ _ _ _ heq
          subst ht'
          refine ⟨?_, ?_, ?_⟩
          · rw [hfe]; exact h0
          · rw [hfe, hmax]; exact h1
          · intro x hx
            rcases List.mem_or_eq_of_mem_set hx with hx | rfl
            · exact h2 x hx
            · show 0 ≤ (s.tasks.get ⟨i, hi⟩).energy_cost
              exact h2 _ (List.get_mem _ _ _)
        · exact ⟨h0, h1, h2⟩
      · exact ⟨h0, h1, h2⟩
  | deleteOp i =>
      simp only [step]
      split
      · rename_i hi
        split
        · rename_i r heq
          obtain rfl := delete_task_ok _ _ _ heq
          have hc : 0 ≤ (s.tasks.get ⟨i, hi⟩).energy_cost :=
            h2 _ (List.get_mem _ _ _)
          refine ⟨?_, ?_, ?_⟩
          · show 0 ≤ min s.run.max_energy
              (s.run.focus_energy + (s.tasks.get ⟨i, hi⟩).energy_cost)
            exact le_min (by omega) (by omega)
          · show min s.run.max_energy
              (s.run.focus_energy + (s.tasks.get ⟨i, hi⟩).energy_cost) ≤
                s.run.max_energy
            exact min_le_left _ _
          · intro x hx
            exact h2 x (mem_of_mem_eraseIdx _ _ _ hx)
        · exact ⟨h0, h1, h2⟩
      · exact ⟨h0, h1, h2⟩

/-- Folding any operation sequence preserves the invariant. -/
theorem foldl_step_preserves (ops : List TaskOp) :
    ∀ s, EnergyInv s → EnergyInv (ops.foldl step s) := by
  induction ops with
  | nil => intro s h; exact h
  | cons op ops ih => intro s h; exact ih _ (step_preserves_energy_inv s op h)

/-! ### Helper lemmas for preset application (C9) -/

/-- A skipped template leaves the run unchanged, keeps the template
untouched, and is skipped exactly because its tier is unknown or its cost
exceeds the current energy. -/
theorem preset_head_out_none_parts (run : Run) (t : TaskTemplate)
    (h : (preset_head_out run t).2 = none) :
    preset_step_run run t = run ∧ (preset_head_out run t).1 = t ∧
    (TIER_CONFIG t.tier = none ∨
      ∃ c, TIER_CONFIG t.tier = some c ∧
        run.focus_energy < c.energy_cost) := by
  cases hc : TIER_CONFIG t.tier with
  | none =>
      refine ⟨?_, ?_, Or.inl rfl⟩ <;>
        simp [preset_step_run, preset_head_out, hc]
  | some c =>
      by_cases he : run.focus_energy < c.energy_cost
      · refine ⟨?_, ?_, Or.inr ⟨c, rfl, he⟩⟩ <;>
          simp [preset_step_run, preset_head_out, hc, he]
      · simp [preset_head_out, hc, he] at h

/-- An applied template: the tier was known and affordable, the created
task has the creation-time fields with XP from `calculate_xp`, the
template's usage counter is incremented, and the energy cost is deducted. -/
theorem preset_head_out_some_parts (run : Run) (t : TaskTemplate)
    (task : Task) (h : (preset_head_out run t).2 = some task) :
    ∃ c, TIER_CONFIG t.tier = some c ∧
      c.energy_cost ≤ run.focus_energy ∧
      task = ⟨t.title, t.tier, t.duration, TaskStatus.pending,
        calculate_xp t.tier t.duration t.use_timer, c.energy_cost,
        t.use_timer⟩ ∧
      (preset_head_out run t).1 = { t with times_used := t.times_used + 1 } ∧
      preset_step_run run t =
        { run with focus_energy := run.focus_energy - c.energy_cost } := by
  cases hc : TIER_CONFIG t.tier with
  | none => simp [preset_head_out, hc] at h
  | some c =>
      by_cases he : run.focus_energy < c.energy_cost
      · simp [preset_head_out, hc, he] at h
      · have hh : (preset_head_out run t).2 =
            some ⟨t.title, t.tier, t.duration, TaskStatus.pending,
              calculate_xp t.tier t.duration t.use_timer, c.energy_cost,
              t.use_timer⟩ := by
          simp [preset_head_out, hc, he]
        refine ⟨c, rfl, le_of_not_lt he,
          (Option.some.inj (hh.symm.trans h)).symm, ?_, ?_⟩
        · simp [preset_head_out, hc, he]
        · simp [preset_step_run, hc, he]

/-- Unfolding the preset loop one template at a time, phrased through
`preset_head_out` and `preset_step_run`. -/
theorem apply_go_cons (run : Run) (t : TaskTemplate) (ts : List TaskTemplate) :
    apply_preset_go run (t :: ts) =
      match preset_head_out run t with
      | (tm, none) =>
          ⟨(apply_preset_go (preset_step_run run t) ts).run,
           (tm, none) :: (apply_preset_go (preset_step_run run t) ts).outs,
           (apply_preset_go (preset_step_run run t) ts).tasks_created,
           (apply_preset_go (preset_step_run run t) ts).tasks_skipped + 1,
           (apply_preset_go (preset_step_run run t) ts).total_energy_cost⟩
      | (tm, some task) =>
          ⟨(apply_preset_go (preset_step_run run t) ts).run,
           (tm, some task) :: (apply_preset_go (preset_step_run run t) ts).outs,
           (apply_preset_go (preset_step_run run t) ts).tasks_created + 1,
           (apply_preset_go (preset_step_run run t) ts).tasks_skipped,
           (apply_preset_go (preset_step_run run t) ts).total_energy_cost +
             task.energy_cost⟩ := by
  cases hc : TIER_CONFIG t.tier with
  | none => simp [apply_preset_go, preset_head_out, preset_step_run, hc]
  | some c =>
      by_cases he : run.focus_energy < c.energy_cost
      · simp [apply_preset_go, preset_head_out, preset_step_run, hc, he]
      · simp [apply_preset_go, preset_head_out, preset_step_run, hc, he]

/-- The run state after the loop does not depend on how the head outcome is
split. -/
theorem apply_go_run_cons (run : Run) (t : TaskTemplate)
    (ts : List TaskTemplate) :
    (apply_preset_go run (t :: ts)).run =
      (apply_preset_go (preset_step_run run t) ts).run := by
  rw [apply_go_cons]
  rcases h : preset_head_out run t with ⟨tm, o⟩
  cases o <;> rfl

/-- One outcome per template. -/
theorem apply_go_outs_length (ts : List TaskTemplate) :
    ∀ run, (apply_preset_go run ts).outs.length = ts.length := by
  induction ts with
  | nil => intro run; rfl
  | cons t ts ih =>
      intro run
      rw [apply_go_cons]
      rcases h : preset_head_out run t with ⟨tm, o⟩
      cases o <;> simp [ih]

/-- Created plus skipped counts equal the number of templates. -/
theorem apply_go_counts (ts : List TaskTemplate) :
    ∀ run, (apply_preset_go run ts).tasks_created +
      (apply_preset_go run ts).tasks_skipped = ts.length := by
  induction ts with
  | nil => intro run; rfl
  | cons t ts ih =>
      intro run
      rw [apply_go_cons]
      rcases h : preset_head_out run t with ⟨tm, o⟩
      cases o
      · have := ih (preset_step_run run t)
        simp only [List.length_cons]
        omega
      · have := ih (preset_step_run run t)
        simp only [List.length_cons]
        omega

/-- The reported total energy cost is exactly what was deducted from the
run's focus energy. -/
theorem apply_go_energy (ts : List TaskTemplate) :
    ∀ run, (apply_preset_go run ts).run.focus_energy =
      run.focus_energy - (apply_preset_go run ts).total_energy_cost := by
  induction ts with
  | nil => intro run; simp [apply_preset_go]
  | cons t ts ih =>
      intro run
      rw [apply_go_cons]
      rcases h : preset_head_out run t with ⟨tm, o⟩
      cases o with
      | none =>
          obtain ⟨hstep, -, -⟩ := preset_head_out_none_parts run t (by rw [h])
          simp only [hstep]
          simpa using ih run
      | some task =>
          obtain ⟨c, hc, hle, htask, hfst, hstep⟩ :=
            preset_head_out_some_parts run t task (by rw [h])
          have hcost : task.energy_cost = c.energy_cost := by rw [htask]
          simp only [hstep, hcost]
          rw [ih]
          simp
          omega

/-- The reported total energy cost is the sum of the created tasks' energy
costs. -/
theorem apply_go_cost_sum (ts : List TaskTemplate) :
    ∀ run, (apply_preset_go run ts).total_energy_cost =
      (((apply_preset_go run ts).outs.filterMap Prod.snd).map
        Task.energy_cost).sum := by
  induction ts with
  | nil => intro run; rfl
  | cons t ts ih =>
      intro run
      rw [apply_go_cons]
      rcases h : preset_head_out run t with ⟨tm, o⟩
      cases o with
      | none =>
          simpa using ih (preset_step_run run t)
      | some task =>
          have := ih (preset_step_run run t)
          simp only [List.filterMap_cons, List.map_cons, List.sum_cons]
          omega

/-- The outcome at index `i` is the head outcome taken at the run state the
loop reaches after the first `i` templates. -/
theorem apply_go_out_spec (ts : List TaskTemplate) :
    ∀ (run : Run) (i : ℕ),
      (apply_preset_go run ts).outs[i]? =
        (ts[i]?).map (fun tmpl =>
          preset_head_out (apply_preset_go run (ts.take i)).run tmpl) := by
  induction ts with
  | nil => intro run i; simp [apply_preset_go]
  | cons t ts ih =>
      intro run i
      cases i with
      | zero =>
          rw [apply_go_cons]
          rcases h : preset_head_out run t with ⟨tm, o⟩
          cases o <;>
            simp [h, List.take_zero, apply_preset_go]
      | succ i =>
          rw [apply_go_cons]
          rcases h : preset_head_out run t with ⟨tm, o⟩
          cases o with
          | none =>
              simp only [h, List.getElem?_cons_succ, List.take_succ_cons]
              rw [apply_go_run_cons]
              exact ih _ i
          | some task =>
              simp only [h, List.getElem?_cons_succ, List.take_succ_cons]
              rw [apply_go_run_cons]
              exact ih _ i

/-- C9: applying a preset on an Active run processes the ordered templates
one by one; the created/skipped counts add up to the number of templates;
the reported total energy cost is the sum of the applied templates' energy
costs and exactly the amount deducted from the run's focus energy; and a
template is skipped precisely when its tier is unknown or its energy cost
exceeds the energy remaining at its position, while an applied template
yields a PENDING task with creation-time fields (XP from `calculate_xp`)
and an incremented usage counter. -/
theorem apply_preset_spec :
    ∀ (run : Run) (templates : List TaskTemplate),
      run.status = RunStatus.active →
      ∃ res, apply_preset run templates = Except.ok res ∧
        res.tasks_created + res.tasks_skipped = templates.length ∧
        res.total_energy_cost =
          ((res.outs.filterMap Prod.snd).map Task.energy_cost).sum ∧
        res.run.focus_energy = run.focus_energy - res.total_energy_cost ∧
        res.outs.length = templates.length ∧
        (∀ i tmpl, templates[i]? = some tmpl →
          ∃ out, res.outs[i]? = some out ∧
            (out.2 = none ↔ (TIER_CONFIG tmpl.tier = none ∨
              ∃ c, TIER_CONFIG tmpl.tier = some c ∧
                remaining_energy_before run templates i < c.energy_cost)) ∧
            (out.2 = none → out.1 = tmpl) ∧
            (∀ task, out.2 = some task →
              ∃ c, TIER_CONFIG tmpl.tier = some c ∧
                c.energy_cost ≤ remaining_energy_before run templates i ∧
                task = ⟨tmpl.title, tmpl.tier, tmpl.duration,
                  TaskStatus.pending,
                  calculate_xp tmpl.tier tmpl.duration tmpl.use_timer,
                  c.energy_cost, tmpl.use_timer⟩ ∧
                out.1 = { tmpl with times_used := tmpl.times_used + 1 })) := by
  intro run templates hst
  refine ⟨apply_preset_go run templates, ?_, apply_go_counts templates run,
    apply_go_cost_sum templates run, apply_go_energy templates run,
    apply_go_outs_length templates run, ?_⟩
  · simp [apply_preset, hst]
  · intro i tmpl hi
    have hspec := apply_go_out_spec templates run i
    rw [hi] at hspec
    simp only [Option.map_some'] at hspec
    refine ⟨preset_head_out (apply_preset_go run (templates.take i)).run tmpl,
      hspec, ?_, ?_, ?_⟩
    · rcases ho : (preset_head_out
          (apply_preset_go run (templates.take i)).run tmpl).2 with _ | task
      · obtain ⟨hstep, hfst, hcond⟩ := preset_head_out_none_parts _ _ ho
        exact iff_of_true rfl hcond
      · obtain ⟨c, hc, hle, htask, hfst, hstep⟩ :=
          preset_head_out_some_parts _ _ _ ho
        refine iff_of_false (fun hh => Option.noConfusion hh) ?_
        rintro (hnone | ⟨c', hc', hlt⟩)
        · rw [hc] at hnone
          exact Option.noConfusion hnone
        · obtain rfl := Option.some.inj (hc.symm.trans hc')
          exact absurd hlt (not_lt.mpr hle)
    · intro ho
      exact (preset_head_out_none_parts _ _ ho).2.1
    · intro task htask
      obtain ⟨c, hc, hle, htaskeq, hfst, hstep⟩ :=
        preset_head_out_some_parts _ _ _ htask
      exact ⟨c, hc, hle, htaskeq, hfst⟩

/-- C9 witness: the theorem applied to a run with 16 energy and a preset
whose templates cost 15, 5, 0 and have one unknown tier: the first and
third are applied, the second and fourth skipped. -/
theorem apply_preset_spec_witness :
    ∃ res, apply_preset c9_run c9_templates = Except.ok res ∧
      res.tasks_created + res.tasks_skipped = c9_templates.length ∧
      res.total_energy_cost =
        ((res.outs.filterMap Prod.snd).map Task.energy_cost).sum ∧
      res.run.focus_energy = c9_run.focus_energy - res.total_energy_cost ∧
      res.outs.length = c9_templates.length ∧
      (∀ i tmpl, c9_templates[i]? = some tmpl →
        ∃ out, res.outs[i]? = some out ∧
          (out.2 = none ↔ (TIER_CONFIG tmpl.tier = none ∨
            ∃ c, TIER_CONFIG tmpl.tier = some c ∧
              remaining_energy_before c9_run c9_templates i < c.energy_cost)) ∧
          (out.2 = none → out.1 = tmpl) ∧
          (∀ task, out.2 = some task →
            ∃ c, TIER_CONFIG tmpl.tier = some c ∧
              c.energy_cost ≤ remaining_energy_before c9_run c9_templates i ∧
              task = ⟨tmpl.title, tmpl.tier, tmpl.duration,
                TaskStatus.pending,
                calculate_xp tmpl.tier tmpl.duration tmpl.use_timer,
                c.energy_cost, tmpl.use_timer⟩ ∧
              out.1 = { tmpl with times_used := tmpl.times_used + 1 })) :=
  apply_preset_spec c9_run c9_templates rfl

/-- C6: starting from a freshly created run, after any finite sequence of
task requests (create / start / complete / fail / delete, each a no-op when
rejected) the run satisfies `0 ≤ focus_energy ≤ max_energy`.  Since this
holds for every sequence, it holds after each prefix, i.e. after each
operation. -/
theorem run_energy_invariant_under_task_ops :
    ∀ ops : List TaskOp,
      0 ≤ ((ops.foldl step init_state).run).focus_energy ∧
      ((ops.foldl step init_state).run).focus_energy ≤
        ((ops.foldl step init_state).run).max_energy := by
  intro ops
  have h := foldl_step_preserves ops init_state
    ⟨by decide, by decide, fun t ht => nomatch ht⟩
  exact ⟨h.1, h.2.1⟩

/-- C10 witness: a user whose last extraction was yesterday (day 737,
today 738) has the streak incremented 4 → 5, best updated to max 6 5 = 6,
and the timestamp set to now. -/
theorem update_user_stats_streak_spec_witness :
    (update_user_stats c10_user c10_run 2 c10_now).current_streak =
      c10_user.current_streak + 1 ∧
    (update_user_stats c10_user c10_run 2 c10_now).best_streak =
      max c10_user.best_streak
        (update_user_stats c10_user c10_run 2 c10_now).current_streak ∧
    (update_user_stats c10_user c10_run 2 c10_now).last_run_at = some c10_now := by
  have h := update_user_stats_streak_spec c10_user c10_run 2 c10_now
  exact ⟨(h.2.1 ⟨737, 5⟩ rfl).1 (by decide), h.2.2.1, h.2.2.2⟩

end RogueDay
